import Mathlib

/-!
# Verification of the `ike_sa_init_requested` state of the IKEv2 daemon

Shallow embedding of `Source/charon/sa/states/ike_sa_init_requested.c`.

The state object (`private_ike_sa_init_requested_t`) is embedded as the
record `StateData`; the pieces of the session object
(`protected_ike_sa_t`) that `process_message` reads or writes are embedded
as `ProtectedIkeSa`.  Calls into collaborators (configuration manager,
Diffie-Hellman object, message generation, session bookkeeping) are
parameters collected in the record `Collab`.  Side effects that the C code
performs (allocator_free, iterator/message destruction, enqueueing the
packet on the global send queue, the state swap, the post-transition
cleanup) are recorded in program order as a trace of `Event`s, so that
claims about resource release and about ordering can be stated.
-/

namespace IkeV2

/-- `status_t` of the source (the subset of codes that can appear here). -/
inductive Status
  | SUCCESS
  | FAILED
  | OUT_OF_RES
  | NOT_SUPPORTED
  | PARSE_ERROR
  | VERIFY_ERROR
  | INVALID_STATE
deriving DecidableEq, Repr

/-- `exchange_type_t` of the source. -/
inductive ExchangeType
  | IKE_SA_INIT
  | IKE_AUTH
  | CREATE_CHILD_SA
  | INFORMATIONAL
deriving DecidableEq, Repr

/-- `ike_sa_state_t` of the source. -/
inductive IkeSaState
  | IKE_SA_INIT_REQUESTED
  | IKE_SA_INIT_RESPONDED
  | IKE_AUTH_REQUESTED
  | IKE_AUTH_RESPONDED
  | ESTABLISHED
deriving DecidableEq, Repr

/-- `chunk_t`: a pointer/length pair.  `ptr = 0` models the null pointer;
`data` is the byte content of the buffer. -/
structure Chunk where
  ptr : Nat
  data : List Nat
deriving DecidableEq, Repr

/-- `CHUNK_INITIALIZER` of the source: null pointer, length zero. -/
def chunkEmpty : Chunk := ⟨0, []⟩

/-- An IKE proposal (`ike_proposal_t`); its contents are irrelevant to this
state, so it is abstract. -/
abbrev Proposal := Nat

/-- A generated packet (`packet_t`), abstract. -/
abbrev Packet := Nat

/-- The payloads `process_message` can meet in the reply
(`payload_t` with its `get_type`).  An `sa` payload carries the result of
`get_ike_proposals` (a status and the extracted proposal list); a `ke`
payload carries `get_key_exchange_data`; a `nonce` payload carries
`get_nonce`; `other ty` stands for a payload of any unsupported type. -/
inductive Payload
  | sa (propStatus : Status) (proposals : List Proposal)
  | ke (keyData : Chunk)
  | nonce (n : Chunk)
  | other (ty : Nat)
deriving DecidableEq, Repr

/-- Observable side effects of `process_message`, in program order.
`free p` is `allocator_free` of a non-null buffer pointer `p`;
`freeProposals` is `allocator_free(ike_proposals)`;
`destroyIterator` is `payloads->destroy(payloads)`;
`destroyReply` / `destroyRequest` are `reply->destroy` / `request->destroy`;
`enqueue pk` is `charon->send_queue->add(.., packet)`;
`createNextState` is `ike_auth_requested_create(..)`;
`destroyNextState` is `(next_state->state_interface).destroy(..)`;
`setNewState` is `this->ike_sa->set_new_state(..)`;
`destroyDH` / `freeSelf` are the releases done by the two destroy
routines of the state object. -/
inductive Event
  | free (ptr : Nat)
  | freeProposals
  | destroyIterator
  | destroyReply
  | destroyRequest
  | enqueue (pk : Packet)
  | createNextState
  | destroyNextState
  | setNewState
  | destroyDH
  | freeSelf
deriving DecidableEq, Repr

/-- `allocator_free(c.ptr)`: a no-op on the null pointer, otherwise one
`free` event. -/
def allocatorFreeChunk (c : Chunk) : List Event :=
  if c.ptr = 0 then [] else [Event.free c.ptr]

/-- `ike_sa_id_t`: the SPI pair identifying the session. -/
structure IkeSaId where
  initiator_spi : Nat
  responder_spi : Nat
deriving DecidableEq, Repr

/-- `id_type_t` (the part used here). -/
inductive IdType
  | ID_RFC822_ADDR
deriving DecidableEq, Repr

/-- `auth_method_t` (the part used here). -/
inductive AuthMethod
  | RSA_DIGITAL_SIGNATURE
deriving DecidableEq, Repr

/-- Payloads of the outgoing IKE_AUTH request built by this state. -/
inductive GenPayload
  | id_payload (t : IdType) (data : String)
  | auth_payload (m : AuthMethod) (data : String)
deriving DecidableEq, Repr

/-- The outgoing request message built by `build_ike_auth_request`. -/
structure RequestMsg where
  exchange_type : ExchangeType
  is_request : Bool
  payloads : List GenPayload
deriving DecidableEq, Repr

/-- The slice of `protected_ike_sa_t` that `process_message` touches:
the identifier, the transforms installed by
`create_transforms_from_proposal`, the arguments recorded by
`compute_secrets`, the message stored by `set_last_requested_message`,
and the current protocol state changed by `set_new_state`. -/
structure ProtectedIkeSa where
  ike_sa_id : IkeSaId
  transforms : Option Proposal
  derived_secrets : Option (Chunk × Chunk × Chunk)
  last_requested_message : Option RequestMsg
  current_state : IkeSaState
deriving DecidableEq, Repr

/-- `private_ike_sa_init_requested_t`: the state object's own data.  The
Diffie-Hellman object is represented by the public value fed to it via
`set_other_public_value` (`none` when none has been set). -/
structure StateData where
  ike_sa : ProtectedIkeSa
  dh_other_public : Option Chunk
  shared_secret : Chunk
  sent_nonce : Chunk
  received_nonce : Chunk
  dh_group_priority : Nat
deriving DecidableEq, Repr

/-- Collaborator behaviour, one field per external call `process_message`
makes whose result it consumes:
`init_config->select_proposal`, the session's
`create_transforms_from_proposal`, the DH object's `get_shared_secret`
(as a function of the public value previously set),
`request->generate`, and the session's `set_last_requested_message`. -/
structure Collab where
  select_proposal : List Proposal → Status × Proposal
  create_transforms_from_proposal : Proposal → Status
  get_shared_secret : Option Chunk → Status × Chunk
  generate : RequestMsg → Status × Packet
  set_last_requested_message : RequestMsg → Status

/-- `build_id_payload`: hardcoded RFC822 identity (see the source). -/
def build_id_payload : GenPayload :=
  GenPayload.id_payload IdType.ID_RFC822_ADDR "moerdi@hsr.ch"

/-- `build_auth_payload`: hardcoded RSA auth data (see the source). -/
def build_auth_payload : GenPayload :=
  GenPayload.auth_payload AuthMethod.RSA_DIGITAL_SIGNATURE "this is the key"

/-- `build_ike_auth_request`: an empty IKE_AUTH request message with the id
and auth payloads appended. -/
def build_ike_auth_request : RequestMsg :=
  { exchange_type := ExchangeType.IKE_AUTH
    is_request := true
    payloads := [build_id_payload, build_auth_payload] }

/-- The incoming reply (`message_t`): the header fields `process_message`
reads, the result of `parse_body`, and the payload list its iterator
yields in wire order. -/
structure Message where
  exchange_type : ExchangeType
  is_request : Bool
  parse_result : Status
  responder_spi : Nat
  payloads : List Payload
deriving DecidableEq, Repr

/-- Lines 159-161 of the source: record the responder SPI from the reply
into the session's `ike_sa_id`. -/
def set_responder_spi (this : StateData) (spi : Nat) : StateData :=
  { this with ike_sa := { this.ike_sa with
      ike_sa_id := { this.ike_sa.ike_sa_id with responder_spi := spi } } }

/-- Prepend a trace of already-emitted events to the result of the rest of
the payload loop. -/
def prependEv (ev0 : List Event) :
    Except (Status × StateData × List Event) (StateData × List Event) →
      Except (Status × StateData × List Event) (StateData × List Event)
  | .error (s, st, ev) => .error (s, st, ev0 ++ ev)
  | .ok (st, ev) => .ok (st, ev0 ++ ev)

/-- The payload loop of `process_message` (lines 164-249).  `.error`
carries an early `return` (the returned status, the state object at that
point, and the events emitted so far, ending with
`payloads->destroy`); `.ok` is normal loop exit (before the
`payloads->destroy` on line 250, which the caller appends). -/
def processPayloads (c : Collab) :
    List Payload → StateData →
      Except (Status × StateData × List Event) (StateData × List Event)
  | [], this => .ok (this, [])
  | Payload.sa propStatus proposals :: rest, this =>
    -- status = sa_payload->get_ike_proposals(..)
    if propStatus ≠ Status.SUCCESS then
      .error (propStatus, this, [Event.destroyIterator])
    else if proposals.length ≠ 1 then
      -- NOTE: the source returns `status` here, which still holds the
      -- SUCCESS produced by get_ike_proposals (line 195)
      .error (propStatus, this, [Event.freeProposals, Event.destroyIterator])
    else
      let sel := c.select_proposal proposals
      if sel.1 ≠ Status.SUCCESS then
        .error (sel.1, this, [Event.freeProposals, Event.destroyIterator])
      else
        let ct := c.create_transforms_from_proposal sel.2
        if ct ≠ Status.SUCCESS then
          .error (ct, this, [Event.freeProposals, Event.destroyIterator])
        else
          prependEv [Event.freeProposals]
            (processPayloads c rest
              { this with ike_sa := { this.ike_sa with transforms := some sel.2 } })
  | Payload.ke keyData :: rest, this =>
    -- diffie_hellman->set_other_public_value(.., get_key_exchange_data(..))
    processPayloads c rest { this with dh_other_public := some keyData }
  | Payload.nonce n :: rest, this =>
    -- allocator_free(received_nonce.ptr); received_nonce = CHUNK_INITIALIZER;
    -- nonce_payload->get_nonce(.., &received_nonce)
    let evHere := allocatorFreeChunk this.received_nonce
    let this := { this with received_nonce := chunkEmpty }
    let this := { this with received_nonce := n }
    prependEv evHere (processPayloads c rest this)
  | Payload.other _ :: _rest, this =>
    .error (Status.FAILED, this, [Event.destroyIterator])

/-- `destroy_after_state_change`: release the DH object and the three
owned chunks, then the state object itself (lines 383-395). -/
def destroy_after_state_change (this : StateData) : List Event :=
  [Event.destroyDH] ++ allocatorFreeChunk this.sent_nonce ++
    allocatorFreeChunk this.received_nonce ++
    allocatorFreeChunk this.shared_secret ++ [Event.freeSelf]

/-- `destroy` (the ordinary destructor, lines 400-411): structurally the
same release list as `destroy_after_state_change`. -/
def destroy (this : StateData) : List Event :=
  [Event.destroyDH] ++ allocatorFreeChunk this.sent_nonce ++
    allocatorFreeChunk this.received_nonce ++
    allocatorFreeChunk this.shared_secret ++ [Event.freeSelf]

/-- `get_state`: the enum tag of this state. -/
def get_state (_this : StateData) : IkeSaState :=
  IkeSaState.IKE_SA_INIT_REQUESTED

/-- Lines 250-303 of the source: everything after the payload loop exits
normally.  Events start with `payloads->destroy` (line 250). -/
def postLoop (c : Collab) (this0 : StateData) :
    Status × StateData × List Event :=
  let ev := [Event.destroyIterator] ++ allocatorFreeChunk this0.shared_secret
  let this := { this0 with shared_secret := chunkEmpty }
  -- status = diffie_hellman->get_shared_secret(..): the returned status is
  -- assigned but never tested in the source (lines 257-260)
  let res := c.get_shared_secret this.dh_other_public
  let this := { this with shared_secret := res.2 }
  -- ike_sa->compute_secrets(.., shared_secret, sent_nonce, received_nonce)
  let this := { this with ike_sa := { this.ike_sa with
      derived_secrets := some (this.shared_secret, this.sent_nonce, this.received_nonce) } }
  let request := build_ike_auth_request
  let gen := c.generate request
  if gen.1 ≠ Status.SUCCESS then
    (gen.1, this, ev ++ [Event.destroyReply])
  else
    let ev := ev ++ [Event.enqueue gen.2, Event.createNextState]
    let sl := c.set_last_requested_message request
    if sl ≠ Status.SUCCESS then
      (sl, this, ev ++ [Event.destroyNextState, Event.destroyRequest])
    else
      let this := { this with ike_sa := { this.ike_sa with
          last_requested_message := some request } }
      let this := { this with ike_sa := { this.ike_sa with
          current_state := IkeSaState.IKE_AUTH_REQUESTED } }
      let ev := ev ++ [Event.setNewState] ++ destroy_after_state_change this
      (Status.SUCCESS, this, ev)

/-- `process_message` (lines 126-304): returns the status, the state data
as left behind, and the trace of side effects, in program order. -/
def process_message (c : Collab) (this : StateData) (reply : Message) :
    Status × StateData × List Event :=
  if reply.exchange_type ≠ ExchangeType.IKE_SA_INIT then
    (Status.FAILED, this, [])
  else if reply.is_request then
    (Status.FAILED, this, [])
  else if reply.parse_result ≠ Status.SUCCESS then
    (reply.parse_result, this, [])
  else
    let this := set_responder_spi this reply.responder_spi
    match processPayloads c reply.payloads this with
    | .error (s, st, ev) => (s, st, ev)
    | .ok (st, ev) =>
      let r := postLoop c st
      (r.1, r.2.1, ev ++ r.2.2)

/-- `ike_sa_init_requested_create`: fresh state with empty received nonce
and shared secret. -/
def ike_sa_init_requested_create (ike_sa : ProtectedIkeSa)
    (dh_group_priority : Nat) (dh_other_public : Option Chunk)
    (sent_nonce : Chunk) : StateData :=
  { ike_sa := ike_sa
    dh_other_public := dh_other_public
    shared_secret := chunkEmpty
    sent_nonce := sent_nonce
    received_nonce := chunkEmpty
    dh_group_priority := dh_group_priority }

/-- The state component of a payload-loop result (early return or normal
exit). -/
def exceptState :
    Except (Status × StateData × List Event) (StateData × List Event) →
      StateData
  | .error (_, st, _) => st
  | .ok (st, _) => st

/-- The event trace of a payload-loop result. -/
def exceptEvents :
    Except (Status × StateData × List Event) (StateData × List Event) →
      List Event
  | .error (_, _, ev) => ev
  | .ok (_, ev) => ev

theorem prependEv_nil (r : Except (Status × StateData × List Event)
    (StateData × List Event)) : prependEv [] r = r := by
  cases r with
  | error e => rcases e with ⟨s, st, ev⟩; simp [prependEv]
  | ok a => rcases a with ⟨st, ev⟩; simp [prependEv]

theorem prependEv_prependEv (a b : List Event)
    (r : Except (Status × StateData × List Event) (StateData × List Event)) :
    prependEv a (prependEv b r) = prependEv (a ++ b) r := by
  cases r with
  | error e => rcases e with ⟨s, st, ev⟩; simp [prependEv]
  | ok x => rcases x with ⟨st, ev⟩; simp [prependEv]

theorem exceptState_prependEv (a : List Event)
    (r : Except (Status × StateData × List Event) (StateData × List Event)) :
    exceptState (prependEv a r) = exceptState r := by
  cases r with
  | error e => rcases e with ⟨s, st, ev⟩; simp [prependEv, exceptState]
  | ok x => rcases x with ⟨st, ev⟩; simp [prependEv, exceptState]

theorem exceptEvents_prependEv (a : List Event)
    (r : Except (Status × StateData × List Event) (StateData × List Event)) :
    exceptEvents (prependEv a r) = a ++ exceptEvents r := by
  cases r with
  | error e => rcases e with ⟨s, st, ev⟩; simp [prependEv, exceptEvents]
  | ok x => rcases x with ⟨st, ev⟩; simp [prependEv, exceptEvents]

/-- The session fields and state fields the payload loop never writes:
the loop only touches `transforms`, `dh_other_public` and
`received_nonce`. -/
def framePreserved (st st' : StateData) : Prop :=
  st'.ike_sa.ike_sa_id = st.ike_sa.ike_sa_id ∧
  st'.ike_sa.derived_secrets = st.ike_sa.derived_secrets ∧
  st'.ike_sa.last_requested_message = st.ike_sa.last_requested_message ∧
  st'.ike_sa.current_state = st.ike_sa.current_state ∧
  st'.sent_nonce = st.sent_nonce ∧
  st'.shared_secret = st.shared_secret

theorem framePreserved_refl (st : StateData) : framePreserved st st := by
  simp [framePreserved]

theorem framePreserved_trans {a b c : StateData} (h1 : framePreserved a b)
    (h2 : framePreserved b c) : framePreserved a c := by
  obtain ⟨x1, x2, x3, x4, x5, x6⟩ := h1
  obtain ⟨y1, y2, y3, y4, y5, y6⟩ := h2
  exact ⟨y1.trans x1, y2.trans x2, y3.trans x3, y4.trans x4,
    y5.trans x5, y6.trans x6⟩

/-- The payload loop preserves the frame fields, on early return as well
as on normal exit. -/
theorem processPayloads_frame (c : Collab) (l : List Payload) :
    ∀ st : StateData, framePreserved st (exceptState (processPayloads c l st)) := by
  induction l with
  | nil => intro st; simp [processPayloads, exceptState, framePreserved]
  | cons p rest ih =>
    intro st
    cases p with
    | sa ps props =>
      simp only [processPayloads]
      split
      · simp [exceptState, framePreserved]
      · split
        · simp [exceptState, framePreserved]
        · split
          · simp [exceptState, framePreserved]
          · split
            · simp [exceptState, framePreserved]
            · rw [exceptState_prependEv]
              refine framePreserved_trans ?_ (ih _)
              simp [framePreserved]
    | ke k =>
      simp only [processPayloads]
      refine framePreserved_trans ?_ (ih _)
      simp [framePreserved]
    | nonce n =>
      simp only [processPayloads]
      rw [exceptState_prependEv]
      refine framePreserved_trans ?_ (ih _)
      simp [framePreserved]
    | other ty => simp [processPayloads, exceptState, framePreserved]

/-- The only events the payload loop can emit: `allocator_free` of a
buffer, `allocator_free` of the proposal array, and destruction of the
payload iterator. -/
theorem processPayloads_events (c : Collab) (l : List Payload) :
    ∀ st : StateData, ∀ e ∈ exceptEvents (processPayloads c l st),
      e = Event.freeProposals ∨ e = Event.destroyIterator ∨
        ∃ p, e = Event.free p := by
  induction l with
  | nil => intro st e he; simp [processPayloads, exceptEvents] at he
  | cons p rest ih =>
    intro st e he
    cases p with
    | sa ps props =>
      simp only [processPayloads] at he
      split at he
      · simp only [exceptEvents] at he
        fin_cases he; simp
      · split at he
        · simp only [exceptEvents] at he
          fin_cases he <;> simp
        · split at he
          · simp only [exceptEvents] at he
            fin_cases he <;> simp
          · split at he
            · simp only [exceptEvents] at he
              fin_cases he <;> simp
            · rw [exceptEvents_prependEv] at he
              rcases List.mem_append.mp he with h | h
              · simp at h; simp [h]
              · exact ih _ e h
    | ke k =>
      simp only [processPayloads] at he
      exact ih _ e he
    | nonce n =>
      simp only [processPayloads] at he
      rw [exceptEvents_prependEv] at he
      rcases List.mem_append.mp he with h | h
      · simp only [allocatorFreeChunk] at h
        split at h
        · simp at h
        · simp at h; subst h; exact Or.inr (Or.inr ⟨_, rfl⟩)
      · exact ih _ e h
    | other ty =>
      simp only [processPayloads, exceptEvents] at he
      fin_cases he; simp

/-- Splitting the payload loop at a list append: process the first part,
then (unless it returned early) the second, with the first part's events
in front. -/
theorem processPayloads_append (c : Collab) (l1 l2 : List Payload) :
    ∀ st, processPayloads c (l1 ++ l2) st =
      match processPayloads c l1 st with
      | .error e => .error e
      | .ok (st', ev') => prependEv ev' (processPayloads c l2 st') := by
  induction l1 with
  | nil =>
    intro st
    simp [processPayloads, prependEv_nil]
  | cons p rest ih =>
    intro st
    cases p with
    | sa ps props =>
      simp only [List.cons_append, processPayloads]
      split
      · rfl
      · split
        · rfl
        · split
          · rfl
          · split
            · rfl
            · simp only [List.append_eq]
              rw [ih]
              cases hres : processPayloads c rest
                  { st with ike_sa := { st.ike_sa with
                      transforms := some (c.select_proposal props).2 } } with
              | error e => simp [prependEv]
              | ok x =>
                rcases x with ⟨st', ev'⟩
                simp only [prependEv]
                cases h2 : processPayloads c l2 st' with
                | error e => rcases e with ⟨s2, st2, ev2⟩; simp
                | ok y => rcases y with ⟨st2, ev2⟩; simp
    | ke k =>
      simp only [List.cons_append, processPayloads]
      simp only [List.append_eq]
      rw [ih]
    | nonce n =>
      simp only [List.cons_append, processPayloads]
      simp only [List.append_eq]
      rw [ih]
      cases hres : processPayloads c rest { st with received_nonce := n } with
      | error e => simp [prependEv]
      | ok x =>
        rcases x with ⟨st', ev'⟩
        simp only [prependEv]
        cases h2 : processPayloads c l2 st' with
        | error e => rcases e with ⟨s2, st2, ev2⟩; simp
        | ok y => rcases y with ⟨st2, ev2⟩; simp
    | other ty => rfl

/-- Overwrite the two loop-written exchange fields: the DH public value
and the received nonce. -/
def setDR (st : StateData) (d : Option Chunk) (r : Chunk) : StateData :=
  { st with dh_other_public := d, received_nonce := r }

/-- Apply `setDR` to the state inside a payload-loop result. -/
def mapDR (d : Option Chunk) (r : Chunk) :
    Except (Status × StateData × List Event) (StateData × List Event) →
      Except (Status × StateData × List Event) (StateData × List Event)
  | .error (s, st, ev) => .error (s, setDR st d r, ev)
  | .ok (st, ev) => .ok (setDR st d r, ev)

theorem mapDR_prependEv (d : Option Chunk) (r : Chunk) (a : List Event)
    (x : Except (Status × StateData × List Event) (StateData × List Event)) :
    mapDR d r (prependEv a x) = prependEv a (mapDR d r x) := by
  cases x with
  | error e => rcases e with ⟨s, st, ev⟩; simp [prependEv, mapDR]
  | ok y => rcases y with ⟨st, ev⟩; simp [prependEv, mapDR]

/-- A payload list containing neither KEY_EXCHANGE nor NONCE payloads
neither reads nor writes the DH public value or the received nonce:
its processing commutes with overwriting those two fields. -/
theorem processPayloads_param (c : Collab) (l : List Payload)
    (hl : ∀ p ∈ l, (∀ k, p ≠ Payload.ke k) ∧ (∀ n, p ≠ Payload.nonce n)) :
    ∀ st d r, processPayloads c l (setDR st d r) =
      mapDR d r (processPayloads c l st) := by
  induction l with
  | nil => intro st d r; simp [processPayloads, mapDR]
  | cons p rest ih =>
    intro st d r
    have hp := hl p (List.mem_cons_self p rest)
    have hrest : ∀ q ∈ rest, (∀ k, q ≠ Payload.ke k) ∧
        (∀ n, q ≠ Payload.nonce n) :=
      fun q hq => hl q (List.mem_cons_of_mem p hq)
    cases p with
    | sa ps props =>
      simp only [processPayloads]
      split
      · simp [mapDR, setDR]
      · split
        · simp [mapDR, setDR]
        · split
          · simp [mapDR, setDR]
          · split
            · simp [mapDR, setDR]
            · have hst : ({ setDR st d r with ike_sa := { (setDR st d r).ike_sa with
                  transforms := some (c.select_proposal props).2 } } : StateData) =
                  setDR { st with ike_sa := { st.ike_sa with
                    transforms := some (c.select_proposal props).2 } } d r := rfl
              rw [hst, ih hrest, mapDR_prependEv]
    | ke k => exact absurd rfl (hp.1 k)
    | nonce n => exact absurd rfl (hp.2 n)
    | other ty => simp [processPayloads, mapDR, setDR]

/-- A payload list without NONCE payloads leaves the received nonce alone
and performs no `allocator_free` of a buffer (only the SA case frees
anything, and that is the proposal array). -/
theorem processPayloads_nonceFree (c : Collab) (l : List Payload)
    (hl : ∀ n, Payload.nonce n ∉ l) :
    ∀ st, (exceptState (processPayloads c l st)).received_nonce =
        st.received_nonce ∧
      ∀ p, Event.free p ∉ exceptEvents (processPayloads c l st) := by
  induction l with
  | nil => intro st; simp [processPayloads, exceptState, exceptEvents]
  | cons q rest ih =>
    intro st
    have hrest : ∀ n, Payload.nonce n ∉ rest := by
      intro n hn
      exact hl n (List.mem_cons_of_mem q hn)
    cases q with
    | sa ps props =>
      simp only [processPayloads]
      split
      · simp [exceptState, exceptEvents]
      · split
        · simp [exceptState, exceptEvents]
        · split
          · simp [exceptState, exceptEvents]
          · split
            · simp [exceptState, exceptEvents]
            · rw [exceptState_prependEv, exceptEvents_prependEv]
              refine ⟨(ih hrest _).1, ?_⟩
              intro p hp
              rcases List.mem_append.mp hp with h | h
              · simp at h
              · exact (ih hrest _).2 p h
    | ke k =>
      simp only [processPayloads]
      exact ih hrest _
    | nonce n => exact absurd (List.mem_cons_self _ _) (hl n)
    | other ty => simp [processPayloads, exceptState, exceptEvents]

/-- The state after the shared-secret retrieval and `compute_secrets`
(lines 252-260): the shared secret holds whatever `get_shared_secret`
produced and the session has recorded the secret-derivation arguments. -/
def computeState (c : Collab) (st : StateData) : StateData :=
  let secret := (c.get_shared_secret st.dh_other_public).2
  { st with shared_secret := secret
            ike_sa := { st.ike_sa with
              derived_secrets := some (secret, st.sent_nonce, st.received_nonce) } }

/-- The state after the full success path: `computeState` plus the stored
last requested message and the state swap to IKE_AUTH_REQUESTED. -/
def postState (c : Collab) (st : StateData) : StateData :=
  { computeState c st with ike_sa := { (computeState c st).ike_sa with
      last_requested_message := some build_ike_auth_request
      current_state := IkeSaState.IKE_AUTH_REQUESTED } }

/-- Post-loop behaviour when `request->generate` fails: the reply is
destroyed (but not the request) and generate's status is returned. -/
theorem postLoop_genFail (c : Collab) (st : StateData)
    (hgen : (c.generate build_ike_auth_request).1 ≠ Status.SUCCESS) :
    postLoop c st = ((c.generate build_ike_auth_request).1, computeState c st,
      [Event.destroyIterator] ++ allocatorFreeChunk st.shared_secret ++
        [Event.destroyReply]) := by
  simp [postLoop, computeState, hgen]

/-- Post-loop behaviour when `set_last_requested_message` fails: the
packet was already enqueued, the successor state is destroyed through its
ordinary destroy, the request is destroyed, the failure is returned. -/
theorem postLoop_slFail (c : Collab) (st : StateData)
    (hgen : (c.generate build_ike_auth_request).1 = Status.SUCCESS)
    (hsl : c.set_last_requested_message build_ike_auth_request ≠ Status.SUCCESS) :
    postLoop c st = (c.set_last_requested_message build_ike_auth_request,
      computeState c st,
      [Event.destroyIterator] ++ allocatorFreeChunk st.shared_secret ++
        [Event.enqueue (c.generate build_ike_auth_request).2,
         Event.createNextState, Event.destroyNextState,
         Event.destroyRequest]) := by
  simp [postLoop, computeState, hgen, hsl]

/-- Post-loop behaviour when everything succeeds: the packet is enqueued,
the successor state is installed, and only then does the old state release
its resources. -/
theorem postLoop_ok (c : Collab) (st : StateData)
    (hgen : (c.generate build_ike_auth_request).1 = Status.SUCCESS)
    (hsl : c.set_last_requested_message build_ike_auth_request = Status.SUCCESS) :
    postLoop c st = (Status.SUCCESS, postState c st,
      [Event.destroyIterator] ++ allocatorFreeChunk st.shared_secret ++
        [Event.enqueue (c.generate build_ike_auth_request).2,
         Event.createNextState, Event.setNewState] ++
        destroy_after_state_change (postState c st)) := by
  simp [postLoop, postState, computeState, hgen, hsl,
    destroy_after_state_change]

/-- No branch of the post-loop code touches the session identifier. -/
theorem postLoop_ike_sa_id (c : Collab) (st : StateData) :
    (postLoop c st).2.1.ike_sa.ike_sa_id = st.ike_sa.ike_sa_id := by
  by_cases hgen : (c.generate build_ike_auth_request).1 = Status.SUCCESS
  · by_cases hsl :
        c.set_last_requested_message build_ike_auth_request = Status.SUCCESS
    · rw [postLoop_ok c st hgen hsl]; simp [postState, computeState]
    · rw [postLoop_slFail c st hgen hsl]; simp [computeState]
  · rw [postLoop_genFail c st hgen]; simp [computeState]

/-- `process_message` once the three header checks pass, expressed through
the payload loop and the post-loop code. -/
theorem process_message_checksPass (c : Collab) (st : StateData)
    (reply : Message)
    (hex : reply.exchange_type = ExchangeType.IKE_SA_INIT)
    (hreq : reply.is_request = false)
    (hparse : reply.parse_result = Status.SUCCESS) :
    process_message c st reply =
      match processPayloads c reply.payloads
          (set_responder_spi st reply.responder_spi) with
      | .error (s, st', ev) => (s, st', ev)
      | .ok (st', ev) =>
        ((postLoop c st').1, (postLoop c st').2.1, ev ++ (postLoop c st').2.2) := by
  simp [process_message, hex, hreq, hparse]

/-- Recognize a send-queue enqueue event. -/
def isEnqueue : Event → Bool
  | Event.enqueue _ => true
  | _ => false

/-- Concrete session fixture used by witnesses and counterexamples. -/
def wIkeSa : ProtectedIkeSa :=
  { ike_sa_id := { initiator_spi := 1, responder_spi := 0 }
    transforms := none
    derived_secrets := none
    last_requested_message := none
    current_state := IkeSaState.IKE_SA_INIT_REQUESTED }

/-- Concrete state fixture: freshly created initiator state. -/
def wState : StateData :=
  ike_sa_init_requested_create wIkeSa 1 none ⟨11, [1, 2]⟩

/-- Collaborators that all succeed. -/
def wCollabOk : Collab :=
  { select_proposal := fun _ => (Status.SUCCESS, 7)
    create_transforms_from_proposal := fun _ => Status.SUCCESS
    get_shared_secret := fun _ => (Status.SUCCESS, ⟨21, [9]⟩)
    generate := fun _ => (Status.SUCCESS, 42)
    set_last_requested_message := fun _ => Status.SUCCESS }

/-- C6: a message whose exchange type is not IKE_SA_INIT, or which is a
request rather than a response, makes `process_message` return the
protocol-mismatch failure (`FAILED`) with the session untouched: no
parsing, no responder-SPI recording, no payload processing, no events at
all, and the state (in particular `current_state`) exactly as before. -/
theorem protocol_mismatch_leaves_session_unchanged (c : Collab)
    (st : StateData) (reply : Message)
    (h : reply.exchange_type ≠ ExchangeType.IKE_SA_INIT ∨
      reply.is_request = true) :
    process_message c st reply = (Status.FAILED, st, []) := by
  rcases h with h | h
  · simp [process_message, h]
  · by_cases hex : reply.exchange_type = ExchangeType.IKE_SA_INIT
    · simp [process_message, hex, h]
    · simp [process_message, hex]

/-- Witness for C6 at a concrete request-direction reply. -/
theorem protocol_mismatch_leaves_session_unchanged_witness :
    process_message wCollabOk wState
      { exchange_type := ExchangeType.IKE_SA_INIT, is_request := true,
        parse_result := Status.SUCCESS, responder_spi := 5,
        payloads := [Payload.nonce ⟨51, [4]⟩] } =
      (Status.FAILED, wState, []) :=
  protocol_mismatch_leaves_session_unchanged wCollabOk wState _ (Or.inr rfl)

/-- C7: a payload of any type other than SECURITY_ASSOCIATION,
KEY_EXCHANGE or NONCE stops the loop at that payload: the iterator is
destroyed, `FAILED` is returned, and the result does not depend on the
payloads after the offending one (`rest` does not occur in the result). -/
theorem unsupported_payload_stops_iteration (c : Collab)
    (st stL : StateData) (reply : Message) (pre rest : List Payload)
    (ty : Nat) (evL : List Event)
    (hex : reply.exchange_type = ExchangeType.IKE_SA_INIT)
    (hreq : reply.is_request = false)
    (hparse : reply.parse_result = Status.SUCCESS)
    (hps : reply.payloads = pre ++ Payload.other ty :: rest)
    (hpre : processPayloads c pre (set_responder_spi st reply.responder_spi) =
      .ok (stL, evL)) :
    process_message c st reply =
      (Status.FAILED, stL, evL ++ [Event.destroyIterator]) := by
  rw [process_message_checksPass c st reply hex hreq hparse, hps,
    processPayloads_append, hpre]
  simp [processPayloads, prependEv]

/-- Witness for C7: the unsupported payload comes first; the nonce payload
after it is never processed. -/
theorem unsupported_payload_stops_iteration_witness :
    process_message wCollabOk wState
      { exchange_type := ExchangeType.IKE_SA_INIT, is_request := false,
        parse_result := Status.SUCCESS, responder_spi := 5,
        payloads := [Payload.other 33, Payload.nonce ⟨51, [4]⟩] } =
      (Status.FAILED, set_responder_spi wState 5, [Event.destroyIterator]) :=
  unsupported_payload_stops_iteration wCollabOk wState
    (set_responder_spi wState 5) _ [] [Payload.nonce ⟨51, [4]⟩] 33 []
    rfl rfl rfl rfl rfl

/-- C10: as soon as the exchange-type, direction and parse checks pass,
the responder SPI of the reply is recorded into the session identifier —
whatever happens afterwards, the result's responder SPI is the reply's;
and when the first payload is unsupported the call still fails, with the
SPI already overwritten. -/
theorem responder_spi_recorded_before_payloads (c : Collab)
    (st : StateData) (reply : Message)
    (hex : reply.exchange_type = ExchangeType.IKE_SA_INIT)
    (hreq : reply.is_request = false)
    (hparse : reply.parse_result = Status.SUCCESS) :
    (process_message c st reply).2.1.ike_sa.ike_sa_id.responder_spi =
      reply.responder_spi ∧
    (∀ ty rest, reply.payloads = Payload.other ty :: rest →
      (process_message c st reply).1 = Status.FAILED) := by
  constructor
  · rw [process_message_checksPass c st reply hex hreq hparse]
    have hframe := processPayloads_frame c reply.payloads
      (set_responder_spi st reply.responder_spi)
    cases hres : processPayloads c reply.payloads
        (set_responder_spi st reply.responder_spi) with
    | error e =>
      rcases e with ⟨s, st', ev⟩
      rw [hres] at hframe
      simp only [exceptState] at hframe
      simp [hframe.1, set_responder_spi]
    | ok x =>
      rcases x with ⟨st', ev⟩
      rw [hres] at hframe
      simp only [exceptState] at hframe
      simp [postLoop_ike_sa_id, hframe.1, set_responder_spi]
  · intro ty rest hps
    rw [process_message_checksPass c st reply hex hreq hparse, hps]
    simp [processPayloads]

/-- Witness for C10: reply carrying only an unsupported payload; the SPI
is overwritten and the call fails. -/
theorem responder_spi_recorded_before_payloads_witness :
    (process_message wCollabOk wState
      { exchange_type := ExchangeType.IKE_SA_INIT, is_request := false,
        parse_result := Status.SUCCESS, responder_spi := 99,
        payloads := [Payload.other 40] }).2.1.ike_sa.ike_sa_id.responder_spi
        = 99 ∧
    (∀ ty rest,
      ([Payload.other 40] : List Payload) = Payload.other ty :: rest →
      (process_message wCollabOk wState
        { exchange_type := ExchangeType.IKE_SA_INIT, is_request := false,
          parse_result := Status.SUCCESS, responder_spi := 99,
          payloads := [Payload.other 40] }).1 = Status.FAILED) :=
  responder_spi_recorded_before_payloads wCollabOk wState _ rfl rfl rfl

/-- The reply of the C1 counterexample: a well-formed IKE_SA_INIT
response whose SA payload offers two proposals. -/
def c1Reply : Message :=
  { exchange_type := ExchangeType.IKE_SA_INIT, is_request := false
    parse_result := Status.SUCCESS, responder_spi := 77
    payloads := [Payload.sa Status.SUCCESS [3, 4]] }

/-- C1 (code bug): on a SECURITY_ASSOCIATION payload with two proposals
the source logs an error, frees the proposal list and the iterator — but
`return status` returns the stale SUCCESS left by `get_ike_proposals`
(line 195), so `process_message` reports success instead of a negotiation
failure.  The state is indeed unchanged and the resources are released,
as the claim says, but the status is SUCCESS. -/
theorem two_proposals_returns_stale_success :
    (process_message wCollabOk wState c1Reply).1 = Status.SUCCESS ∧
    (process_message wCollabOk wState c1Reply).2.1.ike_sa.current_state =
      IkeSaState.IKE_SA_INIT_REQUESTED ∧
    (process_message wCollabOk wState c1Reply).2.2 =
      [Event.freeProposals, Event.destroyIterator] := by decide

/-- Collaborators where the Diffie-Hellman shared-secret computation
fails. -/
def c2Collab : Collab :=
  { wCollabOk with get_shared_secret := fun _ => (Status.FAILED, ⟨31, [5]⟩) }

/-- The reply of the C2 counterexample: a valid KE+NONCE response. -/
def c2Reply : Message :=
  { exchange_type := ExchangeType.IKE_SA_INIT, is_request := false
    parse_result := Status.SUCCESS, responder_spi := 77
    payloads := [Payload.ke ⟨41, [2]⟩, Payload.nonce ⟨43, [3]⟩] }

/-- C2 (code bug): the status of `get_shared_secret` is assigned but never
tested (line 257), so a DH failure is not returned: processing continues
through `compute_secrets`, message building and generation, the packet is
enqueued, the state is swapped, and SUCCESS is returned. -/
theorem dh_failure_not_propagated :
    (c2Collab.get_shared_secret (some ⟨41, [2]⟩)).1 = Status.FAILED ∧
    (process_message c2Collab wState c2Reply).1 = Status.SUCCESS ∧
    (process_message c2Collab wState c2Reply).2.1.ike_sa.derived_secrets =
      some (⟨31, [5]⟩, ⟨11, [1, 2]⟩, ⟨43, [3]⟩) ∧
    Event.enqueue 42 ∈ (process_message c2Collab wState c2Reply).2.2 ∧
    (process_message c2Collab wState c2Reply).2.1.ike_sa.current_state =
      IkeSaState.IKE_AUTH_REQUESTED := by decide

/-- Collaborators where packet generation fails. -/
def c3Collab : Collab :=
  { wCollabOk with generate := fun _ => (Status.FAILED, 0) }

/-- The reply of the C3 counterexample. -/
def c3Reply : Message :=
  { exchange_type := ExchangeType.IKE_SA_INIT, is_request := false
    parse_result := Status.SUCCESS, responder_spi := 77
    payloads := [Payload.ke ⟨41, [2]⟩, Payload.nonce ⟨43, [3]⟩] }

/-- C3 (code bug): when `request->generate` fails, the source returns the
failure, transitions nothing and enqueues nothing, and destroys the
incoming reply — but it does NOT destroy the in-progress IKE_AUTH request
(no `request->destroy` on that path, lines 269-274), leaking it, contrary
to the claim that both objects are released. -/
theorem generate_failure_leaks_request :
    (process_message c3Collab wState c3Reply).1 = Status.FAILED ∧
    Event.destroyReply ∈ (process_message c3Collab wState c3Reply).2.2 ∧
    Event.destroyRequest ∉ (process_message c3Collab wState c3Reply).2.2 ∧
    (process_message c3Collab wState c3Reply).2.2.filter isEnqueue = [] ∧
    Event.setNewState ∉ (process_message c3Collab wState c3Reply).2.2 ∧
    (process_message c3Collab wState c3Reply).2.1.ike_sa.current_state =
      IkeSaState.IKE_SA_INIT_REQUESTED := by decide

/-- Events of a normally-exiting payload loop, characterized. -/
theorem loopEvent_cases (c : Collab) (l : List Payload) (st : StateData)
    {stL : StateData} {evL : List Event}
    (h : processPayloads c l st = .ok (stL, evL)) :
    ∀ e ∈ evL, e = Event.freeProposals ∨ e = Event.destroyIterator ∨
      ∃ p, e = Event.free p := by
  intro e he
  have h2 : e ∈ exceptEvents (processPayloads c l st) := by
    rw [h]; simpa [exceptEvents] using he
  exact processPayloads_events c l st e h2

/-- Membership in an `allocator_free` trace forces the event shape. -/
theorem mem_allocatorFreeChunk {e : Event} {ch : Chunk}
    (h : e ∈ allocatorFreeChunk ch) : e = Event.free ch.ptr := by
  simp only [allocatorFreeChunk] at h
  split at h
  · simp at h
  · simpa using h

/-- C5: when `set_last_requested_message` fails after the successor state
was created, `process_message` returns exactly that failure status, the
successor state is destroyed through its ordinary destroy, the request
message is destroyed, `set_new_state` is never invoked, and the current
state is neither transitioned nor destroyed (no `freeSelf`/`destroyDH`
from `destroy_after_state_change`, `current_state` untouched). -/
theorem set_last_requested_message_failure_keeps_state (c : Collab)
    (st stL : StateData) (reply : Message) (evL : List Event)
    (hex : reply.exchange_type = ExchangeType.IKE_SA_INIT)
    (hreq : reply.is_request = false)
    (hparse : reply.parse_result = Status.SUCCESS)
    (hloop : processPayloads c reply.payloads
      (set_responder_spi st reply.responder_spi) = .ok (stL, evL))
    (hgen : (c.generate build_ike_auth_request).1 = Status.SUCCESS)
    (hsl : c.set_last_requested_message build_ike_auth_request ≠
      Status.SUCCESS) :
    (process_message c st reply).1 =
      c.set_last_requested_message build_ike_auth_request ∧
    Event.createNextState ∈ (process_message c st reply).2.2 ∧
    Event.destroyNextState ∈ (process_message c st reply).2.2 ∧
    Event.destroyRequest ∈ (process_message c st reply).2.2 ∧
    Event.setNewState ∉ (process_message c st reply).2.2 ∧
    Event.freeSelf ∉ (process_message c st reply).2.2 ∧
    Event.destroyDH ∉ (process_message c st reply).2.2 ∧
    (process_message c st reply).2.1.ike_sa.current_state =
      st.ike_sa.current_state ∧
    (process_message c st reply).2.1.ike_sa.last_requested_message =
      st.ike_sa.last_requested_message := by
  have hframe := processPayloads_frame c reply.payloads
    (set_responder_spi st reply.responder_spi)
  rw [hloop] at hframe
  simp only [exceptState] at hframe
  have hev := loopEvent_cases c reply.payloads
    (set_responder_spi st reply.responder_spi) hloop
  rw [process_message_checksPass c st reply hex hreq hparse, hloop]
  simp only [postLoop_slFail c stL hgen hsl]
  refine ⟨?_, ?_, ?_, ?_, ?_, ?_, ?_, ?_, ?_⟩
  · trivial
  · simp
  · simp
  · simp
  · intro hmem
    rcases List.mem_append.mp hmem with h | h
    · rcases hev _ h with h' | h' | ⟨p, h'⟩ <;> simp at h'
    · rcases List.mem_append.mp h with h | h
      · rcases List.mem_append.mp h with h | h
        · simp at h
        · exact absurd (mem_allocatorFreeChunk h) (by simp)
      · simp at h
  · intro hmem
    rcases List.mem_append.mp hmem with h | h
    · rcases hev _ h with h' | h' | ⟨p, h'⟩ <;> simp at h'
    · rcases List.mem_append.mp h with h | h
      · rcases List.mem_append.mp h with h | h
        · simp at h
        · exact absurd (mem_allocatorFreeChunk h) (by simp)
      · simp at h
  · intro hmem
    rcases List.mem_append.mp hmem with h | h
    · rcases hev _ h with h' | h' | ⟨p, h'⟩ <;> simp at h'
    · rcases List.mem_append.mp h with h | h
      · rcases List.mem_append.mp h with h | h
        · simp at h
        · exact absurd (mem_allocatorFreeChunk h) (by simp)
      · simp at h
  · simp only [computeState]
    have := hframe.2.2.2.1
    simp only [set_responder_spi] at this
    simpa using this
  · simp only [computeState]
    have := hframe.2.2.1
    simp only [set_responder_spi] at this
    simpa using this

/-- Collaborators where recording the last requested message fails. -/
def c5Collab : Collab :=
  { wCollabOk with set_last_requested_message := fun _ => Status.INVALID_STATE }

/-- The reply of the C5 witness: an empty, well-formed response. -/
def c5Reply : Message :=
  { exchange_type := ExchangeType.IKE_SA_INIT, is_request := false
    parse_result := Status.SUCCESS, responder_spi := 9
    payloads := [] }

/-- Witness for C5 at concrete inputs. -/
theorem set_last_requested_message_failure_keeps_state_witness :
    (process_message c5Collab wState c5Reply).1 = Status.INVALID_STATE ∧
    Event.createNextState ∈ (process_message c5Collab wState c5Reply).2.2 ∧
    Event.destroyNextState ∈ (process_message c5Collab wState c5Reply).2.2 ∧
    Event.destroyRequest ∈ (process_message c5Collab wState c5Reply).2.2 ∧
    Event.setNewState ∉ (process_message c5Collab wState c5Reply).2.2 ∧
    Event.freeSelf ∉ (process_message c5Collab wState c5Reply).2.2 ∧
    Event.destroyDH ∉ (process_message c5Collab wState c5Reply).2.2 ∧
    (process_message c5Collab wState c5Reply).2.1.ike_sa.current_state =
      IkeSaState.IKE_SA_INIT_REQUESTED ∧
    (process_message c5Collab wState c5Reply).2.1.ike_sa.last_requested_message
      = none :=
  set_last_requested_message_failure_keeps_state c5Collab wState
    (set_responder_spi wState 9) c5Reply [] rfl rfl rfl rfl rfl (by decide)

/-- The whole of `process_message` on the success path, as a function of
the loop's normal exit. -/
theorem process_message_success_shape (c : Collab) (st stL : StateData)
    (reply : Message) (evL : List Event)
    (hex : reply.exchange_type = ExchangeType.IKE_SA_INIT)
    (hreq : reply.is_request = false)
    (hparse : reply.parse_result = Status.SUCCESS)
    (hloop : processPayloads c reply.payloads
      (set_responder_spi st reply.responder_spi) = .ok (stL, evL))
    (hgen : (c.generate build_ike_auth_request).1 = Status.SUCCESS)
    (hsl : c.set_last_requested_message build_ike_auth_request =
      Status.SUCCESS) :
    process_message c st reply = (Status.SUCCESS, postState c stL,
      evL ++ ([Event.destroyIterator] ++
        allocatorFreeChunk stL.shared_secret ++
        [Event.enqueue (c.generate build_ike_auth_request).2,
         Event.createNextState, Event.setNewState] ++
        destroy_after_state_change (postState c stL))) := by
  rw [process_message_checksPass c st reply hex hreq hparse, hloop]
  simp only [postLoop_ok c stL hgen hsl]

theorem filter_isEnqueue_allocatorFreeChunk (ch : Chunk) :
    (allocatorFreeChunk ch).filter isEnqueue = [] := by
  simp only [allocatorFreeChunk]
  split <;> simp [isEnqueue]

theorem filter_isEnqueue_destroy_after (st : StateData) :
    (destroy_after_state_change st).filter isEnqueue = [] := by
  simp [destroy_after_state_change, List.filter_append,
    filter_isEnqueue_allocatorFreeChunk, isEnqueue]

/-- C4: for a response passing all checks whose payloads are exactly one
acceptable SA proposal, one KE payload and one NONCE payload (in any of
the six wire orders), with every collaborator call succeeding:
`process_message` returns SUCCESS, the session state becomes
IKE_AUTH_REQUESTED, exactly one packet — the one generated from the
IKE_AUTH request — is enqueued, and the trace ends with `set_new_state`
followed by the old state's `destroy_after_state_change` releases, i.e.
the old state releases its resources only after the swap. -/
theorem valid_response_transitions_and_enqueues_once (c : Collab)
    (st : StateData) (reply : Message) (p : Proposal) (k n : Chunk)
    (hex : reply.exchange_type = ExchangeType.IKE_SA_INIT)
    (hreq : reply.is_request = false)
    (hparse : reply.parse_result = Status.SUCCESS)
    (hsel : (c.select_proposal [p]).1 = Status.SUCCESS)
    (hct : c.create_transforms_from_proposal (c.select_proposal [p]).2 =
      Status.SUCCESS)
    (_hsecret : (c.get_shared_secret (some k)).1 = Status.SUCCESS)
    (hgen : (c.generate build_ike_auth_request).1 = Status.SUCCESS)
    (hsl : c.set_last_requested_message build_ike_auth_request =
      Status.SUCCESS)
    (hps : reply.payloads =
        [Payload.sa Status.SUCCESS [p], Payload.ke k, Payload.nonce n] ∨
      reply.payloads =
        [Payload.sa Status.SUCCESS [p], Payload.nonce n, Payload.ke k] ∨
      reply.payloads =
        [Payload.ke k, Payload.sa Status.SUCCESS [p], Payload.nonce n] ∨
      reply.payloads =
        [Payload.nonce n, Payload.sa Status.SUCCESS [p], Payload.ke k] ∨
      reply.payloads =
        [Payload.ke k, Payload.nonce n, Payload.sa Status.SUCCESS [p]] ∨
      reply.payloads =
        [Payload.nonce n, Payload.ke k, Payload.sa Status.SUCCESS [p]]) :
    (process_message c st reply).1 = Status.SUCCESS ∧
    (process_message c st reply).2.1.ike_sa.current_state =
      IkeSaState.IKE_AUTH_REQUESTED ∧
    (process_message c st reply).2.2.filter isEnqueue =
      [Event.enqueue (c.generate build_ike_auth_request).2] ∧
    ∃ evPre, (process_message c st reply).2.2 =
      evPre ++ [Event.setNewState] ++
        destroy_after_state_change (process_message c st reply).2.1 := by
  obtain ⟨stL, evL, hloop⟩ : ∃ stL evL,
      processPayloads c reply.payloads
        (set_responder_spi st reply.responder_spi) = .ok (stL, evL) := by
    rcases hps with h | h | h | h | h | h <;>
      rw [h] <;>
      simp only [processPayloads, hsel, hct, ne_eq, not_true_eq_false,
        if_false, ite_false, reduceIte, prependEv] <;>
      exact ⟨_, _, rfl⟩
  have hev := loopEvent_cases c reply.payloads
    (set_responder_spi st reply.responder_spi) hloop
  rw [process_message_success_shape c st stL reply evL hex hreq hparse
    hloop hgen hsl]
  refine ⟨rfl, ?_, ?_, ?_⟩
  · simp [postState, computeState]
  · have h1 : evL.filter isEnqueue = [] := by
      rw [List.filter_eq_nil_iff]
      intro e he
      rcases hev e he with h' | h' | ⟨q, h'⟩ <;> subst h' <;>
        simp [isEnqueue]
    simp [List.filter_append, h1, filter_isEnqueue_allocatorFreeChunk,
      filter_isEnqueue_destroy_after, isEnqueue]
  · refine ⟨evL ++ ([Event.destroyIterator] ++
      allocatorFreeChunk stL.shared_secret ++
      [Event.enqueue (c.generate build_ike_auth_request).2,
       Event.createNextState]), ?_⟩
    simp

/-- The reply of the C4 witness. -/
def c4Reply : Message :=
  { exchange_type := ExchangeType.IKE_SA_INIT, is_request := false
    parse_result := Status.SUCCESS, responder_spi := 77
    payloads := [Payload.sa Status.SUCCESS [3], Payload.ke ⟨41, [2]⟩,
      Payload.nonce ⟨43, [3]⟩] }

/-- Witness for C4 at concrete inputs. -/
theorem valid_response_transitions_and_enqueues_once_witness :
    (process_message wCollabOk wState c4Reply).1 = Status.SUCCESS ∧
    (process_message wCollabOk wState c4Reply).2.1.ike_sa.current_state =
      IkeSaState.IKE_AUTH_REQUESTED ∧
    (process_message wCollabOk wState c4Reply).2.2.filter isEnqueue =
      [Event.enqueue (wCollabOk.generate build_ike_auth_request).2] ∧
    ∃ evPre, (process_message wCollabOk wState c4Reply).2.2 =
      evPre ++ [Event.setNewState] ++
        destroy_after_state_change
          (process_message wCollabOk wState c4Reply).2.1 :=
  valid_response_transitions_and_enqueues_once wCollabOk wState c4Reply
    3 ⟨41, [2]⟩ ⟨43, [3]⟩ rfl rfl rfl rfl rfl rfl rfl rfl (Or.inl rfl)

/-- Number of occurrences of an event in a trace. -/
def countEv (e : Event) : List Event → Nat
  | [] => 0
  | x :: xs => (if x = e then 1 else 0) + countEv e xs

theorem countEv_append (e : Event) (l1 l2 : List Event) :
    countEv e (l1 ++ l2) = countEv e l1 + countEv e l2 := by
  induction l1 with
  | nil => simp [countEv]
  | cons x xs ih => simp [countEv, ih, Nat.add_assoc]

theorem countEv_eq_zero_of_not_mem {e : Event} {l : List Event}
    (h : e ∉ l) : countEv e l = 0 := by
  induction l with
  | nil => rfl
  | cons x xs ih =>
    simp only [countEv]
    have hx : x ≠ e := fun hx => h (hx ▸ List.mem_cons_self x xs)
    rw [if_neg hx, ih (fun hm => h (List.mem_cons_of_mem x hm))]

theorem countEv_free_allocatorFreeChunk_ne {q : Nat} {ch : Chunk}
    (h : ch.ptr ≠ q) :
    countEv (Event.free q) (allocatorFreeChunk ch) = 0 := by
  simp only [allocatorFreeChunk]
  split
  · rfl
  · simp [countEv, h]

theorem countEv_free_allocatorFreeChunk_self {ch : Chunk}
    (h : ch.ptr ≠ 0) :
    countEv (Event.free ch.ptr) (allocatorFreeChunk ch) = 1 := by
  simp [allocatorFreeChunk, h, countEv]

/-- C9: on a message carrying two NONCE payloads, processing the second
one first releases the buffer stored by the first one (exactly one
`free` of that buffer over the whole call, given its pointer is distinct
from every other buffer in play) and then overwrites the field, so the
final stored received nonce is the second payload's value. -/
theorem duplicate_nonce_overwritten_released_once (c : Collab)
    (st stA stC : StateData) (reply : Message) (a cc : List Payload)
    (n1 n2 : Chunk) (evA evC : List Event)
    (hex : reply.exchange_type = ExchangeType.IKE_SA_INIT)
    (hreq : reply.is_request = false)
    (hparse : reply.parse_result = Status.SUCCESS)
    (hps : reply.payloads = a ++ Payload.nonce n1 :: Payload.nonce n2 :: cc)
    (ha : ∀ m, Payload.nonce m ∉ a)
    (hcc : ∀ m, Payload.nonce m ∉ cc)
    (hloopA : processPayloads c a
      (set_responder_spi st reply.responder_spi) = .ok (stA, evA))
    (hloopC : processPayloads c cc { stA with received_nonce := n2 } =
      .ok (stC, evC))
    (hgen : (c.generate build_ike_auth_request).1 = Status.SUCCESS)
    (hsl : c.set_last_requested_message build_ike_auth_request =
      Status.SUCCESS)
    (hn1 : n1.ptr ≠ 0)
    (d1 : st.received_nonce.ptr ≠ n1.ptr)
    (d2 : n2.ptr ≠ n1.ptr)
    (d3 : st.shared_secret.ptr ≠ n1.ptr)
    (d4 : st.sent_nonce.ptr ≠ n1.ptr)
    (d5 : ∀ d, (c.get_shared_secret d).2.ptr ≠ n1.ptr) :
    (process_message c st reply).1 = Status.SUCCESS ∧
    (process_message c st reply).2.1.received_nonce = n2 ∧
    countEv (Event.free n1.ptr) (process_message c st reply).2.2 = 1 := by
  have hframeA := processPayloads_frame c a
    (set_responder_spi st reply.responder_spi)
  rw [hloopA] at hframeA
  simp only [exceptState] at hframeA
  have hnfA := processPayloads_nonceFree c a ha
    (set_responder_spi st reply.responder_spi)
  rw [hloopA] at hnfA
  simp only [exceptState, exceptEvents] at hnfA
  have hframeC := processPayloads_frame c cc
    { stA with received_nonce := n2 }
  rw [hloopC] at hframeC
  simp only [exceptState] at hframeC
  have hnfC := processPayloads_nonceFree c cc hcc
    { stA with received_nonce := n2 }
  rw [hloopC] at hnfC
  simp only [exceptState, exceptEvents] at hnfC
  have hrecA : stA.received_nonce = st.received_nonce := by
    have := hnfA.1
    simpa [set_responder_spi] using this
  have hrC : stC.received_nonce = n2 := by
    have := hnfC.1
    simpa using this
  have hsharedA : stA.shared_secret = st.shared_secret := by
    have := hframeA.2.2.2.2.2
    simpa [set_responder_spi] using this
  have hsharedC : stC.shared_secret = st.shared_secret := by
    have := hframeC.2.2.2.2.2
    simpa [hsharedA] using this
  have hsentA : stA.sent_nonce = st.sent_nonce := by
    have := hframeA.2.2.2.2.1
    simpa [set_responder_spi] using this
  have hsentC : stC.sent_nonce = st.sent_nonce := by
    have := hframeC.2.2.2.2.1
    simpa [hsentA] using this
  have hloop : processPayloads c reply.payloads
      (set_responder_spi st reply.responder_spi) =
      .ok (stC, evA ++ (allocatorFreeChunk stA.received_nonce ++
        (allocatorFreeChunk n1 ++ evC))) := by
    rw [hps, processPayloads_append, hloopA]
    have step : processPayloads c
        (Payload.nonce n1 :: Payload.nonce n2 :: cc) stA =
        prependEv (allocatorFreeChunk stA.received_nonce)
          (prependEv (allocatorFreeChunk n1)
            (processPayloads c cc { stA with received_nonce := n2 })) := rfl
    show prependEv evA (processPayloads c
      (Payload.nonce n1 :: Payload.nonce n2 :: cc) stA) = _
    rw [step, hloopC]
    simp [prependEv]
  rw [process_message_success_shape c st stC reply _ hex hreq hparse
    hloop hgen hsl]
  refine ⟨rfl, ?_, ?_⟩
  · simp [postState, computeState, hrC]
  · have e1 : countEv (Event.free n1.ptr) evA = 0 :=
      countEv_eq_zero_of_not_mem (hnfA.2 n1.ptr)
    have e2 : countEv (Event.free n1.ptr)
        (allocatorFreeChunk stA.received_nonce) = 0 := by
      rw [hrecA]; exact countEv_free_allocatorFreeChunk_ne d1
    have e3 : countEv (Event.free n1.ptr) (allocatorFreeChunk n1) = 1 :=
      countEv_free_allocatorFreeChunk_self hn1
    have e4 : countEv (Event.free n1.ptr) evC = 0 :=
      countEv_eq_zero_of_not_mem (hnfC.2 n1.ptr)
    have e5 : countEv (Event.free n1.ptr)
        (allocatorFreeChunk stC.shared_secret) = 0 := by
      rw [hsharedC]; exact countEv_free_allocatorFreeChunk_ne d3
    have e6 : countEv (Event.free n1.ptr)
        (allocatorFreeChunk (postState c stC).sent_nonce) = 0 := by
      have hx : (postState c stC).sent_nonce = st.sent_nonce := by
        simp [postState, computeState, hsentC]
      rw [hx]; exact countEv_free_allocatorFreeChunk_ne d4
    have e7 : countEv (Event.free n1.ptr)
        (allocatorFreeChunk (postState c stC).received_nonce) = 0 := by
      have hx : (postState c stC).received_nonce = n2 := by
        simp [postState, computeState, hrC]
      rw [hx]; exact countEv_free_allocatorFreeChunk_ne d2
    have e8 : countEv (Event.free n1.ptr)
        (allocatorFreeChunk (postState c stC).shared_secret) = 0 := by
      have hx : (postState c stC).shared_secret =
          (c.get_shared_secret stC.dh_other_public).2 := by
        simp [postState, computeState]
      rw [hx]; exact countEv_free_allocatorFreeChunk_ne (d5 _)
    simp [countEv_append, destroy_after_state_change, e1, e2, e3, e4, e5,
      e6, e7, e8, countEv]

/-- The reply of the C9 witness: two consecutive NONCE payloads. -/
def c9Reply : Message :=
  { exchange_type := ExchangeType.IKE_SA_INIT, is_request := false
    parse_result := Status.SUCCESS, responder_spi := 77
    payloads := [Payload.nonce ⟨45, [1]⟩, Payload.nonce ⟨46, [2]⟩] }

/-- Witness for C9 at concrete inputs. -/
theorem duplicate_nonce_overwritten_released_once_witness :
    (process_message wCollabOk wState c9Reply).1 = Status.SUCCESS ∧
    (process_message wCollabOk wState c9Reply).2.1.received_nonce =
      ⟨46, [2]⟩ ∧
    countEv (Event.free 45)
      (process_message wCollabOk wState c9Reply).2.2 = 1 :=
  duplicate_nonce_overwritten_released_once wCollabOk wState
    (set_responder_spi wState 77)
    { set_responder_spi wState 77 with received_nonce := ⟨46, [2]⟩ }
    c9Reply [] [] ⟨45, [1]⟩ ⟨46, [2]⟩ [] []
    rfl rfl rfl rfl (by simp) (by simp) rfl rfl rfl rfl
    (by decide) (by decide) (by decide) (by decide) (by decide)
    (fun d => by show (21 : Nat) ≠ 45; decide)

/-- `process_message` when `parse_body` fails: the parser's status is
propagated and nothing has happened yet. -/
theorem process_message_parseFail (c : Collab) (st : StateData)
    (reply : Message)
    (hex : reply.exchange_type = ExchangeType.IKE_SA_INIT)
    (hreq : reply.is_request = false)
    (hparse : reply.parse_result ≠ Status.SUCCESS) :
    process_message c st reply = (reply.parse_result, st, []) := by
  simp [process_message, hex, hreq, hparse]

/-- Loop results that `process_message` maps to the same status, shared
secret and derivation record: equal early-return status and agreeing
error states, or identical normal-exit states (event traces may differ,
e.g. in order). -/
def swapEquiv :
    Except (Status × StateData × List Event) (StateData × List Event) →
      Except (Status × StateData × List Event) (StateData × List Event) →
      Prop
  | .error (s1, st1, _), .error (s2, st2, _) =>
    s1 = s2 ∧ st1.shared_secret = st2.shared_secret ∧
      st1.ike_sa.derived_secrets = st2.ike_sa.derived_secrets
  | .ok (st1, _), .ok (st2, _) => st1 = st2
  | _, _ => False

/-- Swapping the single KEY_EXCHANGE payload with the single NONCE
payload of a payload list (no other KE/NONCE in between) gives
swap-equivalent loop results: both runs leave identical states on normal
exit — in particular the same DH public value and received nonce — and
on early return they agree on status, shared secret and derivation
record. -/
theorem processPayloads_swap (c : Collab) (a b cc : List Payload)
    (k n : Chunk)
    (hb : ∀ p ∈ b, (∀ x, p ≠ Payload.ke x) ∧ (∀ x, p ≠ Payload.nonce x))
    (st : StateData) :
    swapEquiv
      (processPayloads c
        (a ++ Payload.ke k :: (b ++ Payload.nonce n :: cc)) st)
      (processPayloads c
        (a ++ Payload.nonce n :: (b ++ Payload.ke k :: cc)) st) := by
  rw [processPayloads_append, processPayloads_append]
  cases hA : processPayloads c a st with
  | error e =>
    rcases e with ⟨s, stE, evE⟩
    simp [swapEquiv]
  | ok x =>
    rcases x with ⟨stA, evA⟩
    have lhs1 : processPayloads c
        (Payload.ke k :: (b ++ Payload.nonce n :: cc)) stA =
        processPayloads c (b ++ Payload.nonce n :: cc)
          (setDR stA (some k) stA.received_nonce) := rfl
    have rhs1 : processPayloads c
        (Payload.nonce n :: (b ++ Payload.ke k :: cc)) stA =
        prependEv (allocatorFreeChunk stA.received_nonce)
          (processPayloads c (b ++ Payload.ke k :: cc)
            (setDR stA stA.dh_other_public n)) := rfl
    simp only [lhs1, rhs1, processPayloads_append,
      processPayloads_param c b hb]
    cases hB : processPayloads c b stA with
    | error e =>
      rcases e with ⟨s, stE, evE⟩
      simp [mapDR, prependEv, swapEquiv, setDR]
    | ok y =>
      rcases y with ⟨stO, evO⟩
      have lhs2 : processPayloads c (Payload.nonce n :: cc)
          (setDR stO (some k) stA.received_nonce) =
          prependEv (allocatorFreeChunk stA.received_nonce)
            (processPayloads c cc (setDR stO (some k) n)) := rfl
      have rhs2 : processPayloads c (Payload.ke k :: cc)
          (setDR stO stA.dh_other_public n) =
          processPayloads c cc (setDR stO (some k) n) := rfl
      simp only [mapDR, lhs2, rhs2]
      cases hC : processPayloads c cc (setDR stO (some k) n) with
      | error e =>
        rcases e with ⟨s, stE, evE⟩
        simp [prependEv, swapEquiv]
      | ok z =>
        rcases z with ⟨stC, evC⟩
        simp [prependEv, swapEquiv]

/-- C8: two replies equal except that the KEY_EXCHANGE and NONCE payloads
(the only ones of their kinds in the message) are swapped on the wire
produce the same status, the same stored shared secret, and the same
`compute_secrets` arguments: both payloads are consumed into separate
state fields before the shared secret is computed after the loop. -/
theorem ke_nonce_wire_order_irrelevant (c : Collab) (st : StateData)
    (reply1 reply2 : Message) (a b cc : List Payload) (k n : Chunk)
    (hhdr1 : reply1.exchange_type = reply2.exchange_type)
    (hhdr2 : reply1.is_request = reply2.is_request)
    (hhdr3 : reply1.parse_result = reply2.parse_result)
    (hhdr4 : reply1.responder_spi = reply2.responder_spi)
    (hp1 : reply1.payloads =
      a ++ Payload.ke k :: (b ++ Payload.nonce n :: cc))
    (hp2 : reply2.payloads =
      a ++ Payload.nonce n :: (b ++ Payload.ke k :: cc))
    (hb : ∀ p ∈ b, (∀ x, p ≠ Payload.ke x) ∧ (∀ x, p ≠ Payload.nonce x)) :
    (process_message c st reply1).1 = (process_message c st reply2).1 ∧
    (process_message c st reply1).2.1.shared_secret =
      (process_message c st reply2).2.1.shared_secret ∧
    (process_message c st reply1).2.1.ike_sa.derived_secrets =
      (process_message c st reply2).2.1.ike_sa.derived_secrets := by
  by_cases hex : reply1.exchange_type = ExchangeType.IKE_SA_INIT
  · by_cases hreq : reply1.is_request
    · rw [protocol_mismatch_leaves_session_unchanged c st reply1
        (Or.inr hreq),
        protocol_mismatch_leaves_session_unchanged c st reply2
        (Or.inr (hhdr2 ▸ hreq))]
      exact ⟨rfl, rfl, rfl⟩
    · by_cases hparse : reply1.parse_result = Status.SUCCESS
      · have hreq1 : reply1.is_request = false := by
          simpa using hreq
        have hreq2 : reply2.is_request = false := hhdr2 ▸ hreq1
        have hex2 : reply2.exchange_type = ExchangeType.IKE_SA_INIT :=
          hhdr1 ▸ hex
        have hparse2 : reply2.parse_result = Status.SUCCESS :=
          hhdr3 ▸ hparse
        rw [process_message_checksPass c st reply1 hex hreq1 hparse,
          process_message_checksPass c st reply2 hex2 hreq2 hparse2,
          hp1, hp2, ← hhdr4]
        have hsw := processPayloads_swap c a b cc k n hb
          (set_responder_spi st reply1.responder_spi)
        cases h1 : processPayloads c
            (a ++ Payload.ke k :: (b ++ Payload.nonce n :: cc))
            (set_responder_spi st reply1.responder_spi) with
        | error e1 =>
          rcases e1 with ⟨s1, stE1, evE1⟩
          cases h2 : processPayloads c
              (a ++ Payload.nonce n :: (b ++ Payload.ke k :: cc))
              (set_responder_spi st reply1.responder_spi) with
          | error e2 =>
            rcases e2 with ⟨s2, stE2, evE2⟩
            rw [h1, h2] at hsw
            simp only [swapEquiv] at hsw
            exact ⟨hsw.1, hsw.2.1, hsw.2.2⟩
          | ok x2 =>
            rcases x2 with ⟨stL2, evL2⟩
            rw [h1, h2] at hsw
            simp only [swapEquiv] at hsw
        | ok x1 =>
          rcases x1 with ⟨stL1, evL1⟩
          cases h2 : processPayloads c
              (a ++ Payload.nonce n :: (b ++ Payload.ke k :: cc))
              (set_responder_spi st reply1.responder_spi) with
          | error e2 =>
            rcases e2 with ⟨s2, stE2, evE2⟩
            rw [h1, h2] at hsw
            simp only [swapEquiv] at hsw
          | ok x2 =>
            rcases x2 with ⟨stL2, evL2⟩
            rw [h1, h2] at hsw
            simp only [swapEquiv] at hsw
            subst hsw
            exact ⟨rfl, rfl, rfl⟩
      · have hreq1 : reply1.is_request = false := by simpa using hreq
        have hreq2 : reply2.is_request = false := hhdr2 ▸ hreq1
        have hex2 : reply2.exchange_type = ExchangeType.IKE_SA_INIT :=
          hhdr1 ▸ hex
        have hparse2 : reply2.parse_result ≠ Status.SUCCESS :=
          hhdr3 ▸ hparse
        rw [process_message_parseFail c st reply1 hex hreq1 hparse,
          process_message_parseFail c st reply2 hex2 hreq2 hparse2]
        exact ⟨hhdr3, rfl, rfl⟩
  · have hex2 : reply2.exchange_type ≠ ExchangeType.IKE_SA_INIT :=
      hhdr1 ▸ hex
    rw [protocol_mismatch_leaves_session_unchanged c st reply1
      (Or.inl hex),
      protocol_mismatch_leaves_session_unchanged c st reply2
      (Or.inl hex2)]
    exact ⟨rfl, rfl, rfl⟩

/-- The two replies of the C8 witness: KE before NONCE, and swapped. -/
def c8Reply1 : Message :=
  { exchange_type := ExchangeType.IKE_SA_INIT, is_request := false
    parse_result := Status.SUCCESS, responder_spi := 77
    payloads := [Payload.sa Status.SUCCESS [3], Payload.ke ⟨41, [2]⟩,
      Payload.nonce ⟨43, [3]⟩] }

def c8Reply2 : Message :=
  { exchange_type := ExchangeType.IKE_SA_INIT, is_request := false
    parse_result := Status.SUCCESS, responder_spi := 77
    payloads := [Payload.sa Status.SUCCESS [3], Payload.nonce ⟨43, [3]⟩,
      Payload.ke ⟨41, [2]⟩] }

/-- Witness for C8 at concrete inputs. -/
theorem ke_nonce_wire_order_irrelevant_witness :
    (process_message wCollabOk wState c8Reply1).1 =
      (process_message wCollabOk wState c8Reply2).1 ∧
    (process_message wCollabOk wState c8Reply1).2.1.shared_secret =
      (process_message wCollabOk wState c8Reply2).2.1.shared_secret ∧
    (process_message wCollabOk wState c8Reply1).2.1.ike_sa.derived_secrets
      = (process_message wCollabOk wState c8Reply2).2.1.ike_sa.derived_secrets :=
  ke_nonce_wire_order_irrelevant wCollabOk wState c8Reply1 c8Reply2
    [Payload.sa Status.SUCCESS [3]] [] [] ⟨41, [2]⟩ ⟨43, [3]⟩
    rfl rfl rfl rfl rfl rfl (by simp)

end IkeV2
